import Mathlib

/-!
Verification of the moke-bookmarks CI helper scripts.

This file gives a shallow embedding, in Lean 4, of the decision logic of the
repository's Python scripts:

  * `scripts/truncate_content.py` — `extract_content`, `truncate_content`, `main`
  * `scripts/wait_crawl.py`      — `wait_for_completion` (the polling loop), `main`
  * `scripts/ai_inference.py`    — `call_openai_api`, `call_anthropic_api`, `main`

Modelling conventions:

  * Parsed JSON payloads are modelled by the inductive type `Json`.  Numbers are
    modelled as integers (no claim involves fractional values); `Json.obj`
    models the Python `dict` produced by `json.loads`, whose keys are unique.
  * Python truthiness (`if x:`) is modelled by `truthy`.
  * File reads and JSON parsing are modelled by their outcome (`Option Json`,
    or the `SubmitFile` stages), since each failure mode collapses to the same
    branch in the scripts.
  * Exceptions that the scripts can actually raise past their handlers are
    modelled with `Except PyErr`; `PyErr` names the Python exception class.
  * Emission of a GitHub-Actions output (`set_github_output`) is modelled as
    the value handed to it; the append to the `GITHUB_OUTPUT` file itself is
    abstracted.
  * String functions (`lower`, `strip`, `int(...)`) are modelled for ASCII
    text, which is the character range these CI scripts exchange.
-/

/-- A parsed JSON value, as produced by Python's `json.loads`.  `obj` models
the resulting `dict` (keys unique, insertion order kept); `null` doubles as
Python's `None`, which is also what `dict.get` returns for a missing key. -/
inductive Json where
  | null : Json
  | bool (b : Bool) : Json
  | num (n : Int) : Json
  | str (s : String) : Json
  | arr (elems : List Json) : Json
  | obj (fields : List (String × Json)) : Json

/-- Python truthiness of a parsed-JSON value: `None`, `False`, `0`, `""`,
`[]` and `{}` are falsy, everything else truthy. -/
def truthy : Json → Bool
  | .null => false
  | .bool b => b
  | .num n => n != 0
  | .str s => s.length != 0
  | .arr xs => !xs.isEmpty
  | .obj kvs => !kvs.isEmpty

/-- `d.get(k)`: look a key up in a parsed-JSON object, `None` when absent. -/
def dictGet (kvs : List (String × Json)) (k : String) : Json :=
  (List.lookup k kvs).getD Json.null

/-- `d.get(k, default)`. -/
def dictGetD (kvs : List (String × Json)) (k : String) (d : Json) : Json :=
  (List.lookup k kvs).getD d

/-- Python's short-circuiting `or`: the left operand if truthy, else the
right operand. -/
def pyOr (a b : Json) : Json :=
  if truthy a then a else b

/-- Python `==` between a parsed-JSON value and a string literal: true exactly
when the value is that string (values of other types never equal a `str`). -/
def jsonIsStrEq (j : Json) (s : String) : Bool :=
  match j with
  | .str t => t == s
  | _ => false

/-- Whether a parsed-JSON value is a string (Python `isinstance(x, str)`). -/
def jsonIsStr : Json → Bool
  | .str _ => true
  | _ => false

/-- Escape one character the way Python `repr` escapes it inside a
single-quoted string literal (modelled for the printable-ASCII range plus
newline, carriage return and tab). -/
def pyCharEscape (c : Char) : String :=
  if c = '\\' then "\\\\"
  else if c = '\'' then "\\'"
  else if c = '\n' then "\\n"
  else if c = '\r' then "\\r"
  else if c = '\t' then "\\t"
  else String.singleton c

/-- Body of a Python single-quoted string literal for `repr`. -/
def pyStrEscape (s : String) : String :=
  String.join (s.toList.map pyCharEscape)

mutual

/-- Python `repr` of a value parsed from JSON: `None`/`True`/`False`, decimal
integers, single-quoted strings, `[..., ...]` lists and `{'k': v, ...}`
dicts. -/
def pyRepr : Json → String
  | .null => "None"
  | .bool true => "True"
  | .bool false => "False"
  | .num n => toString n
  | .str s => "'" ++ pyStrEscape s ++ "'"
  | .arr xs => "[" ++ pyReprList xs ++ "]"
  | .obj kvs => "\x7b" ++ pyReprFields kvs ++ "\x7d"

/-- Comma-separated `repr`s of the elements of a Python list. -/
def pyReprList : List Json → String
  | [] => ""
  | [x] => pyRepr x
  | x :: y :: xs => pyRepr x ++ ", " ++ pyReprList (y :: xs)

/-- Comma-separated `'key': value` entries of a Python dict `repr`. -/
def pyReprFields : List (String × Json) → String
  | [] => ""
  | [(k, v)] => "'" ++ pyStrEscape k ++ "': " ++ pyRepr v
  | (k, v) :: e :: kvs =>
      "'" ++ pyStrEscape k ++ "': " ++ pyRepr v ++ ", " ++ pyReprFields (e :: kvs)

end

/-- Python `str(x)` on a value parsed from JSON: the string itself for a
`str`, `repr` for every other type. -/
def pyStr (j : Json) : String :=
  match j with
  | .str s => s
  | j => pyRepr j

/-! ## `scripts/truncate_content.py` — `extract_content` -/

/-- The fallback text of `extract_content` (line 96 of
`truncate_content.py`), built from the `FALLBACK_URL` and `FALLBACK_TITLE`
environment values. -/
def fallbackText (url title : String) : String :=
  "URL: " ++ url ++ "\nTitle: " ++ title ++
    "\nDescription: Content could not be retrieved from the URL. Please check if the URL is accessible and try again."

/-- The `or`-chain over candidate content fields used by `extract_content`
(lines 58–65 and 69–76 of `truncate_content.py`). -/
def contentFieldChain (kvs : List (String × Json)) : Json :=
  pyOr (dictGet kvs "fit_markdown")
    (pyOr (dictGet kvs "markdown")
      (pyOr (dictGet kvs "cleaned_html")
        (pyOr (dictGet kvs "raw_html")
          (pyOr (dictGet kvs "html") (Json.str "")))))

/-- The field extraction of `extract_content` from a successfully parsed
object payload (lines 44–76 of `truncate_content.py`): normalise `results`
(first element of a non-empty list, `{}` for an empty list), run the
candidate-field `or`-chain on it when it is a non-empty dict, and if that
left `content` falsy, run the same chain on a dict-valued `result`. -/
def extractFromPayload (kvs : List (String × Json)) : Json :=
  let result := dictGetD kvs "result" (Json.obj [])
  let results := dictGetD kvs "results" (Json.obj [])
  let results :=
    match results with
    | Json.arr (x :: _) => x
    | Json.arr [] => Json.obj []
    | r => r
  let content :=
    match results with
    | Json.obj rkvs =>
        if truthy (Json.obj rkvs) then contentFieldChain rkvs else Json.str ""
    | _ => Json.str ""
  if !truthy content then
    match result with
    | Json.obj rs => contentFieldChain rs
    | _ => content
  else content

/-- `extract_content` of `truncate_content.py` (lines 11–98), with the field
extraction from a parsed object payload factored into `extractFromPayload`.

`crawl_outcome` is the `CRAWL_OUTCOME` environment value.  `payload` is the
outcome of reading and JSON-parsing `/tmp/crawl_result_response.json`:
`none` when the file is missing, unreadable, empty, or not valid JSON — each
of which leaves `content` empty in the script.  A payload that parses to a
non-object raises `AttributeError` at `response_data.keys()`, which the
script's own `except Exception` swallows, likewise leaving `content` empty.
The returned value is whatever the candidate-field `or`-chains produce (not
necessarily a string), or the fallback text. -/
def extract_content (crawl_outcome : String) (payload : Option Json)
    (fallback_url fallback_title : String) : Json :=
  let content : Json :=
    if crawl_outcome = "success" then
      match payload with
      | some (Json.obj kvs) => extractFromPayload kvs
      | _ => Json.str ""
    else Json.str ""
  if !truthy content then Json.str (fallbackText fallback_url fallback_title)
  else content

/-- The candidate fields `extract_content` probes, in priority order, as the
specification lists them. -/
def extractFieldOrder : List String :=
  ["fit_markdown", "markdown", "cleaned_html", "raw_html", "html"]

/-- First truthy value among the named fields of a dict, scanning the field
names in the given priority order. -/
def firstTruthyField (kvs : List (String × Json)) : List String → Option Json
  | [] => none
  | k :: ks =>
      if truthy (dictGet kvs k) then some (dictGet kvs k)
      else firstTruthyField kvs ks

/-- Modelled from the spec: the priority search over candidate sub-fields —
first non-empty among `fit_markdown`, `markdown`, `cleaned_html`, `raw_html`,
`html` — applied to one value; a non-mapping has no sub-fields. -/
def specFieldSearch (j : Json) : Option Json :=
  match j with
  | .obj kvs => firstTruthyField kvs extractFieldOrder
  | _ => none

/-- Modelled from the spec: the `results` value the search starts from —
the first element when `results` is a non-empty list, absent when it is an
empty list or missing, the value itself otherwise. -/
def specSelectResults (kvs : List (String × Json)) : Option Json :=
  match List.lookup "results" kvs with
  | some (Json.arr (x :: _)) => some x
  | some (Json.arr []) => none
  | some r => some r
  | none => none

/-- Modelled from the spec: the priority field search applied to the
selected `results` value (nothing when `results` counted as absent). -/
def specExtractFromResults (kvs : List (String × Json)) : Option Json :=
  match specSelectResults kvs with
  | some r => specFieldSearch r
  | none => none

/-- Modelled from the spec: extraction precedence for a successfully crawled,
JSON-parsed payload.  Prefer `results` (non-empty list: its first element;
empty list: absent); run the priority field search there; only if nothing is
found, run the same search inside `result`. -/
def specExtractSuccess (p : Json) : Option Json :=
  match p with
  | .obj kvs =>
    match specExtractFromResults kvs with
    | some v => some v
    | none => specFieldSearch (dictGetD kvs "result" (Json.obj []))
  | _ => none

/-! ### Lemmas relating the `or`-chain to the priority search -/

theorem firstTruthyField_truthy {kvs : List (String × Json)} :
    ∀ {ks : List String} {v : Json}, firstTruthyField kvs ks = some v → truthy v = true := by
  intro ks
  induction ks with
  | nil => intro v h; simp [firstTruthyField] at h
  | cons k ks ih =>
    intro v h
    unfold firstTruthyField at h
    by_cases hk : truthy (dictGet kvs k) = true
    · simp only [hk, if_true] at h
      cases h
      exact hk
    · simp only [hk, if_false, Bool.false_eq_true] at h
      exact ih h

theorem contentFieldChain_eq (kvs : List (String × Json)) :
    contentFieldChain kvs =
      match firstTruthyField kvs extractFieldOrder with
      | some v => v
      | none => Json.str "" := by
  simp only [contentFieldChain, extractFieldOrder, firstTruthyField, pyOr]
  split_ifs <;> rfl

theorem truthy_contentFieldChain (kvs : List (String × Json)) :
    truthy (contentFieldChain kvs) = (firstTruthyField kvs extractFieldOrder).isSome := by
  rw [contentFieldChain_eq]
  cases h : firstTruthyField kvs extractFieldOrder with
  | none => simp [truthy]
  | some v => simp [firstTruthyField_truthy h]

theorem specFieldSearch_truthy {j v : Json} (h : specFieldSearch j = some v) :
    truthy v = true := by
  cases j <;> simp [specFieldSearch] at h
  case obj kvs => exact firstTruthyField_truthy h

theorem resultStage_eq (r : Json) :
    (match r with
     | Json.obj rs => contentFieldChain rs
     | _ => Json.str "") =
      match specFieldSearch r with
      | some v => v
      | none => Json.str "" := by
  cases r <;> simp [specFieldSearch]
  case obj rs => exact contentFieldChain_eq rs

theorem objStage_eq (rkvs : List (String × Json)) :
    (if truthy (Json.obj rkvs) then contentFieldChain rkvs else Json.str "") =
      match firstTruthyField rkvs extractFieldOrder with
      | some v => v
      | none => Json.str "" := by
  cases rkvs with
  | nil => rfl
  | cons e rest => exact contentFieldChain_eq (e :: rest)

theorem resultsStage_eq (r : Json) :
    (match r with
     | Json.obj rkvs =>
         if truthy (Json.obj rkvs) then contentFieldChain rkvs else Json.str ""
     | _ => Json.str "") =
      match specFieldSearch r with
      | some v => v
      | none => Json.str "" := by
  cases r <;> simp [specFieldSearch]
  case obj rkvs =>
    cases rkvs with
    | nil => rfl
    | cons e rest => exact contentFieldChain_eq (e :: rest)

theorem extractFromPayload_eq (kvs : List (String × Json)) :
    extractFromPayload kvs =
      match specExtractSuccess (Json.obj kvs) with
      | some v => v
      | none => Json.str "" := by
  simp only [extractFromPayload, specExtractSuccess, specExtractFromResults,
    specSelectResults, dictGetD]
  cases hres : List.lookup "results" kvs with
  | none => exact resultStage_eq _
  | some rv =>
      cases rv with
      | null => exact resultStage_eq _
      | bool b => exact resultStage_eq _
      | num n => exact resultStage_eq _
      | str s => exact resultStage_eq _
      | arr elems =>
          cases elems with
          | nil => exact resultStage_eq _
          | cons x xs =>
              simp only [Option.getD]
              rw [resultsStage_eq x]
              cases hs : specFieldSearch x with
              | none => exact resultStage_eq _
              | some v =>
                  have ht : truthy v = true := specFieldSearch_truthy hs
                  simp [ht]
      | obj rkvs =>
          simp only [Option.getD, specFieldSearch]
          rw [objStage_eq rkvs]
          cases hs : firstTruthyField rkvs extractFieldOrder with
          | none => exact resultStage_eq _
          | some v =>
              have ht : truthy v = true := firstTruthyField_truthy hs
              simp [ht]

theorem specExtractFromResults_truthy {kvs : List (String × Json)} {v : Json}
    (h : specExtractFromResults kvs = some v) : truthy v = true := by
  have h2 : (match specSelectResults kvs with
             | some r => specFieldSearch r
             | none => none) = some v := h
  cases hsel : specSelectResults kvs with
  | some r =>
      rw [hsel] at h2
      have h3 : specFieldSearch r = some v := h2
      exact specFieldSearch_truthy h3
  | none =>
      rw [hsel] at h2
      have h3 : (none : Option Json) = some v := h2
      cases h3

theorem specExtractSuccess_truthy {p v : Json} (h : specExtractSuccess p = some v) :
    truthy v = true := by
  cases p with
  | obj kvs =>
      have h2 : (match specExtractFromResults kvs with
                 | some w => some w
                 | none => specFieldSearch (dictGetD kvs "result" (Json.obj []))) =
          some v := h
      cases hf : specExtractFromResults kvs with
      | some w =>
          rw [hf] at h2
          have h3 : some w = some v := h2
          cases h3
          exact specExtractFromResults_truthy hf
      | none =>
          rw [hf] at h2
          have h3 : specFieldSearch (dictGetD kvs "result" (Json.obj [])) = some v := h2
          exact specFieldSearch_truthy h3
  | null => cases h
  | bool b => cases h
  | num n => cases h
  | str s => cases h
  | arr xs => cases h

/-- **C1.** For a successful crawl whose payload parses as JSON,
`extract_content` follows the stated precedence, captured by
`specExtractSuccess`: prefer `results` (a non-empty list contributes its
first element, an empty list counts as absent), probe the candidate
sub-fields in the fixed order `fit_markdown`, `markdown`, `cleaned_html`,
`raw_html`, `html` and take the first non-empty, and only if nothing is
found there run the same priority search inside `result`; when the search
finds nothing the fallback text is produced.  In particular the payload
`{"results": [{"markdown": "A"}]}` yields `"A"`. -/
theorem extract_content_precedence (p : Json) (u t : String) :
    (extract_content "success" (some p) u t =
      match specExtractSuccess p with
      | some v => v
      | none => Json.str (fallbackText u t)) ∧
    extract_content "success"
      (some (Json.obj [("results", Json.arr [Json.obj [("markdown", Json.str "A")]])]))
      u t = Json.str "A" := by
  constructor
  · cases p with
    | obj kvs =>
        show (if !truthy (extractFromPayload kvs) then Json.str (fallbackText u t)
              else extractFromPayload kvs) = _
        rw [extractFromPayload_eq kvs]
        cases hs : specExtractSuccess (Json.obj kvs) with
        | none => rfl
        | some v =>
            have ht : truthy v = true := specExtractSuccess_truthy hs
            simp [ht]
    | null => rfl
    | bool b => rfl
    | num n => rfl
    | str s => rfl
    | arr xs => rfl
  · rfl

/-! ## `scripts/truncate_content.py` — `truncate_content` -/

/-- Python exception classes that the modelled code can raise past its own
handlers. -/
inductive PyErr where
  | keyError : PyErr
  | indexError : PyErr
  | typeError : PyErr
  | valueError : PyErr
deriving DecidableEq

/-- Digits of a Python `int` literal after an optional first digit was
consumed: further digits, optionally separated by single underscores. -/
def pyDigitsRest (acc : Nat) : List Char → Option Nat
  | [] => some acc
  | '_' :: c :: cs =>
      if c.isDigit then pyDigitsRest (acc * 10 + (c.toNat - 48)) cs else none
  | ['_'] => none
  | c :: cs =>
      if c.isDigit then pyDigitsRest (acc * 10 + (c.toNat - 48)) cs else none

/-- The digit run of a Python `int` literal: at least one digit, single
underscores allowed between digits, none leading or trailing. -/
def pyDigits : List Char → Option Nat
  | [] => none
  | c :: cs => if c.isDigit then pyDigitsRest (c.toNat - 48) cs else none

/-- Python's `str.strip()` with no argument, on ASCII text: drop leading
and trailing whitespace. -/
def pyStrip (s : String) : String :=
  String.mk
    (((s.toList.dropWhile Char.isWhitespace).reverse.dropWhile
        Char.isWhitespace).reverse)

/-- Python's `int(s)` on a decimal string: surrounding whitespace stripped,
optional sign, then the digit run; `none` models the `ValueError` raised on
anything else (ASCII digits modelled). -/
def pyInt (s : String) : Option Int :=
  match (pyStrip s).toList with
  | '-' :: rest => (pyDigits rest).map (fun n => -(n : Int))
  | '+' :: rest => (pyDigits rest).map (fun n => (n : Int))
  | rest => (pyDigits rest).map (fun n => (n : Int))

/-- Resolution of `max_length` in `truncate_content` (lines 103–105 of
`truncate_content.py`): `int(os.environ.get('TRUNCATE_CONTENT_MAX_LENGTH',
6000))`.  `env` is the environment value (`none` when unset); a set value
that `int` rejects raises `ValueError`. -/
def resolveMaxLength (env : Option String) : Except PyErr Int :=
  match env with
  | none => .ok 6000
  | some s =>
      match pyInt s with
      | some n => .ok n
      | none => .error .valueError

/-- The fixed truncation marker appended at line 133 of
`truncate_content.py`. -/
def truncationMarker : String := "... [Content truncated to fit token limit]"

/-- Python's `s[:k]` for an integer `k`: the first `k` characters, counted
from the end when `k` is negative, clamped to the string. -/
def pySliceTo (s : String) (k : Int) : String :=
  let n : Int := if k < 0 then (s.length : Int) + k else k
  s.take (max n 0).toNat

/-- The `or`-chain `truncate_content` runs on a dict content value
(lines 110–121 of `truncate_content.py`): `raw_markdown` first, then the
extraction candidates, with `str(content)` as the final fallback. -/
def truncFieldChain (kvs : List (String × Json)) : Json :=
  pyOr (dictGet kvs "raw_markdown")
    (pyOr (dictGet kvs "fit_markdown")
      (pyOr (dictGet kvs "markdown")
        (pyOr (dictGet kvs "cleaned_html")
          (pyOr (dictGet kvs "raw_html")
            (pyOr (dictGet kvs "html") (Json.str (pyStr (Json.obj kvs))))))))

/-- The final length comparison and slice of `truncate_content`
(lines 129–138 of `truncate_content.py`). -/
def truncStr (s : String) (maxLength : Int) : String :=
  if maxLength < (s.length : Int) then pySliceTo s maxLength ++ truncationMarker
  else s

/-- `truncate_content` of `truncate_content.py` (lines 100–138), for an
already-resolved `max_length`: a dict content value goes through
`truncFieldChain`; a non-string result is converted with `str` (`pyStr`);
then the string is compared against `max_length` and possibly truncated. -/
def truncate_content (content : Json) (maxLength : Int) : String :=
  let content :=
    match content with
    | Json.obj kvs => truncFieldChain kvs
    | c => c
  truncStr (pyStr content) maxLength

/-- **C2.** With a configured maximum `m ≥ 0` (default 6000, overridable via
`TRUNCATE_CONTENT_MAX_LENGTH`), string content longer than `m` becomes
exactly its first `m` characters followed by the fixed truncation marker,
and content within the limit passes through unchanged; the modelled
truncation is a total function. -/
theorem truncate_content_spec (s : String) (m : Int) (h : 0 ≤ m) :
    resolveMaxLength none = .ok 6000 ∧
    (∀ (t : String) (n : Int), pyInt t = some n → resolveMaxLength (some t) = .ok n) ∧
    (m < (s.length : Int) →
      truncate_content (Json.str s) m = s.take m.toNat ++ truncationMarker) ∧
    (¬ m < (s.length : Int) → truncate_content (Json.str s) m = s) := by
  refine ⟨rfl, ?_, ?_, ?_⟩
  · intro t n ht
    simp [resolveMaxLength, ht]
  · intro hlt
    show truncStr (pyStr (Json.str s)) m = _
    simp only [pyStr, truncStr, pySliceTo]
    rw [if_pos hlt, if_neg (not_lt.mpr h), max_eq_left h]
  · intro hge
    show truncStr (pyStr (Json.str s)) m = s
    simp only [pyStr, truncStr]
    rw [if_neg hge]

/-- Witness for `truncate_content_spec` at content `"abcdefgh"` and maximum
`5`. -/
theorem truncate_content_spec_witness :
    truncate_content (Json.str "abcdefgh") 5 =
      "abcdefgh".take (Int.toNat 5) ++ truncationMarker :=
  (truncate_content_spec "abcdefgh" 5 (by decide)).2.2.1 (by decide)

/-- The field order `truncate_content` actually uses on a dict:
`raw_markdown` first, then the extraction candidates. -/
def truncateFieldOrder : List String :=
  ["raw_markdown", "fit_markdown", "markdown", "cleaned_html", "raw_html", "html"]

theorem truncFieldChain_eq (kvs : List (String × Json)) :
    truncFieldChain kvs =
      match firstTruthyField kvs truncateFieldOrder with
      | some v => v
      | none => Json.str (pyStr (Json.obj kvs)) := by
  simp only [truncFieldChain, truncateFieldOrder, firstTruthyField, pyOr]
  split_ifs <;> rfl

/-- **C4 (counterexample).** The claim predicts that a dict reaching
truncation goes through the same priority search as extraction
(`fit_markdown` first), which on
`{"raw_markdown": "R", "fit_markdown": "F"}` selects `"F"`; the code
instead probes `raw_markdown` first and yields `"R"`. -/
theorem truncate_dict_order_counterexample :
    truncate_content
        (Json.obj [("raw_markdown", Json.str "R"), ("fit_markdown", Json.str "F")])
        6000 = "R" ∧
    firstTruthyField
        [("raw_markdown", Json.str "R"), ("fit_markdown", Json.str "F")]
        extractFieldOrder = some (Json.str "F") ∧
    ("R" : String) ≠ "F" :=
  ⟨rfl, rfl, by decide⟩

/-- **C4 (amended).** For every dict reaching the truncation stage,
`truncate_content` runs a candidate-field priority search that tries
`raw_markdown` first and then the extraction order `fit_markdown`,
`markdown`, `cleaned_html`, `raw_html`, `html`, taking the first non-empty
value; only when every candidate is empty is the whole mapping stringified,
and the chosen value is then converted to plain text and truncated. -/
theorem truncate_dict_priority (kvs : List (String × Json)) (m : Int) :
    truncate_content (Json.obj kvs) m =
      truncStr (pyStr (match firstTruthyField kvs truncateFieldOrder with
                       | some v => v
                       | none => Json.str (pyStr (Json.obj kvs)))) m := by
  show truncStr (pyStr (truncFieldChain kvs)) m = _
  rw [truncFieldChain_eq]

/-! ## `scripts/truncate_content.py` — fallback behaviour (`extract_content`) -/

theorem fallbackText_length_pos (u t : String) : 0 < (fallbackText u t).length := by
  simp [fallbackText, String.length_append]
  left; left; left; left
  decide

theorem truthy_fallback_wrap (c : Json) (u t : String) :
    truthy (if !truthy c then Json.str (fallbackText u t) else c) = true := by
  by_cases hc : truthy c = true
  · simp [hc]
  · simp only [Bool.not_eq_true] at hc
    rw [hc]
    show truthy (Json.str (fallbackText u t)) = true
    have hl := fallbackText_length_pos u t
    simp only [truthy, bne_iff_ne, ne_eq]
    omega

/-- **C7 (counterexample).** The claim says `extract_content` always returns
a non-empty *string*; on the payload `{"results": [{"markdown": 42}]}` the
code returns the number `42`, which is not a string. -/
theorem extract_content_nonstring_counterexample :
    extract_content "success"
        (some (Json.obj [("results", Json.arr [Json.obj [("markdown", Json.num 42)]])]))
        "u" "t" = Json.num 42 ∧
    jsonIsStr (Json.num 42) = false :=
  ⟨rfl, rfl⟩

/-- **C7 (amended).** Whenever the crawl outcome is not `success`, the
payload is missing or unparsable, or no candidate field yields a truthy
value, `extract_content` returns the fixed fallback string built from the
fallback URL and title; for every input the returned content is truthy
(non-empty in Python's sense), though it is the candidate field's raw value
and need not be a string. -/
theorem extract_content_fallback (outcome : String) (payload : Option Json)
    (p : Json) (u t : String) :
    (outcome ≠ "success" →
      extract_content outcome payload u t = Json.str (fallbackText u t)) ∧
    (extract_content "success" none u t = Json.str (fallbackText u t)) ∧
    (specExtractSuccess p = none →
      extract_content "success" (some p) u t = Json.str (fallbackText u t)) ∧
    truthy (extract_content outcome payload u t) = true := by
  refine ⟨?_, rfl, ?_, ?_⟩
  · intro h
    simp [extract_content, h, truthy]
  · intro h
    cases p with
    | obj kvs =>
        show (if !truthy (extractFromPayload kvs) then Json.str (fallbackText u t)
              else extractFromPayload kvs) = _
        rw [extractFromPayload_eq kvs, h]
        rfl
    | null => rfl
    | bool b => rfl
    | num n => rfl
    | str s => rfl
    | arr xs => rfl
  · exact truthy_fallback_wrap _ u t

/-- Witness for `extract_content_fallback`: a failed crawl outcome yields
the fallback text, and the result is truthy. -/
theorem extract_content_fallback_witness :
    extract_content "failure" none "myurl" "mytitle" =
      Json.str (fallbackText "myurl" "mytitle") :=
  (extract_content_fallback "failure" none Json.null "myurl" "mytitle").1 (by decide)

/-! ## `scripts/truncate_content.py` — `main` -/

/-- The fallback text emitted by `main`'s top-level exception handler
(line 168 of `truncate_content.py`). -/
def errorFallbackText (url title : String) : String :=
  "URL: " ++ url ++ "\nTitle: " ++ title ++ "\nDescription: Error processing content."

/-- Observable outcome of a `main` run: process exit code and the value
published as the `content` output (`none` when nothing was emitted). -/
structure TruncMainOut where
  exitCode : Nat
  content : Option String

/-- `main` of `truncate_content.py` (lines 154–170): extract, truncate and
emit the `content` output.  The one raise point reachable in the modelled
pipeline is `int()` on an unparsable `TRUNCATE_CONTENT_MAX_LENGTH` value
(`resolveMaxLength`); the top-level `except Exception` catches it, emits the
error fallback instead, and calls `sys.exit(0)`, so the exit code is 0 on
both paths. -/
def truncate_main (crawl_outcome : String) (payload : Option Json)
    (fallback_url fallback_title : String) (maxLenEnv : Option String) :
    TruncMainOut :=
  match resolveMaxLength maxLenEnv with
  | .ok m =>
      ⟨0, some (truncate_content
        (extract_content crawl_outcome payload fallback_url fallback_title) m)⟩
  | .error _ => ⟨0, some (errorFallbackText fallback_url fallback_title)⟩

/-- **C8.** The extractor/truncator entry point never fails: for every
input it exits with status zero and publishes a `content` output, and when
the pipeline raises (modelled: `int()` rejecting the configured maximum) the
published content is the fixed error-fallback text. -/
theorem truncate_main_never_fails (outcome : String) (payload : Option Json)
    (u t : String) (maxEnv : Option String) :
    (truncate_main outcome payload u t maxEnv).exitCode = 0 ∧
    (truncate_main outcome payload u t maxEnv).content.isSome = true ∧
    (∀ e : PyErr, resolveMaxLength maxEnv = .error e →
      (truncate_main outcome payload u t maxEnv).content =
        some (errorFallbackText u t)) := by
  refine ⟨?_, ?_, ?_⟩
  · unfold truncate_main
    cases resolveMaxLength maxEnv <;> rfl
  · unfold truncate_main
    cases resolveMaxLength maxEnv <;> rfl
  · intro e he
    unfold truncate_main
    rw [he]

/-- Witness for `truncate_main_never_fails`: an unparsable maximum-length
environment value still produces exit 0 with the error-fallback content. -/
theorem truncate_main_never_fails_witness :
    (truncate_main "success" none "u" "t" (some "oops")).content =
      some (errorFallbackText "u" "t") :=
  (truncate_main_never_fails "success" none "u" "t" (some "oops")).2.2
    PyErr.valueError rfl

/-! ## `scripts/wait_crawl.py` — the polling loop -/

/-- Timeout passed to each `requests.get` of the polling loop (line 47 of
`wait_crawl.py`), in seconds. -/
def pollRequestTimeoutSeconds : Nat := 10

/-- Duration of the `time.sleep` after each retried attempt (lines 51, 66,
70, 74 of `wait_crawl.py`), in seconds. -/
def pollSleepSeconds : Nat := 5

/-- Number of polling attempts: `for attempt in range(1, 13)` (line 45). -/
def pollMaxAttempts : Nat := 12

/-- Outcome of one `GET /task/{task_id}` attempt as the script observes it:
`transportErr` when `requests.get` raises a `RequestException`, otherwise
the HTTP status code and the body (`none` when `response.json()` raises
`JSONDecodeError`). -/
inductive Attempt where
  | transportErr : Attempt
  | response (code : Nat) (body : Option Json) : Attempt

/-- `task_data.get('status', 'unknown')` (line 55 of `wait_crawl.py`). -/
def taskStatus (kvs : List (String × Json)) : Json :=
  dictGetD kvs "status" (Json.str "unknown")

/-- What one iteration of the polling loop does with its attempt. -/
inductive AttemptStep where
  | retry : AttemptStep
  | finish (r : Option Json) : AttemptStep

/-- One iteration of the loop body (lines 46–75 of `wait_crawl.py`): a
transport error, a non-200 status, an unparsable body, and a 200 JSON
object whose `status` is neither `completed` nor `failed` all retry;
`completed` returns the task payload; `failed` returns `None`.  A 200 body
that is valid JSON but not an object makes `task_data.get` raise
`AttributeError`, which only the outer `except Exception` catches, so the
whole call returns `None` at that attempt. -/
def classifyBody : Option Json → AttemptStep
  | none => .retry
  | some (Json.obj kvs) =>
      if jsonIsStrEq (taskStatus kvs) "completed" then
        .finish (some (Json.obj kvs))
      else if jsonIsStrEq (taskStatus kvs) "failed" then .finish none
      else .retry
  | some _ => .finish none

/-- Classification of a whole attempt: a non-200 status retries, a 200
response is classified by its body. -/
def classifyAttempt : Attempt → AttemptStep
  | .transportErr => .retry
  | .response code body =>
      if code ≠ 200 then .retry
      else classifyBody body

/-- Whether an attempt makes the loop retry. -/
def attemptRetryable (a : Attempt) : Bool :=
  match classifyAttempt a with
  | .retry => true
  | .finish _ => false

/-- Result of the polling loop: the returned value, the number of GET
attempts issued, and the number of 5-second sleeps performed. -/
structure PollOutcome where
  result : Option Json
  attempts : Nat
  sleeps : Nat

/-- The polling loop (lines 45–78 of `wait_crawl.py`).  `f i` is the
outcome of the `i`-th GET (1-based); `done` attempts have been made so far,
`fuel` remain, `sleeps` sleeps have been performed.  Every retried attempt
is followed by one 5-second sleep, including the last one before the
timeout return. -/
def pollAux (f : Nat → Attempt) : Nat → Nat → Nat → PollOutcome
  | done, 0, sleeps => ⟨none, done, sleeps⟩
  | done, fuel + 1, sleeps =>
      match classifyAttempt (f (done + 1)) with
      | .retry => pollAux f (done + 1) fuel (sleeps + 1)
      | .finish r => ⟨r, done + 1, sleeps⟩

/-- The polling loop of `wait_for_completion`, started at attempt 1 with
all 12 attempts available. -/
def wait_poll (f : Nat → Attempt) : PollOutcome :=
  pollAux f 0 pollMaxAttempts 0

theorem retryable_classify {a : Attempt} (h : attemptRetryable a = true) :
    classifyAttempt a = .retry := by
  unfold attemptRetryable at h
  cases hc : classifyAttempt a with
  | retry => rfl
  | finish r => rw [hc] at h; cases h

theorem pollAux_attempts_le (f : Nat → Attempt) :
    ∀ (fuel done sleeps : Nat), (pollAux f done fuel sleeps).attempts ≤ done + fuel := by
  intro fuel
  induction fuel with
  | zero => intro done sleeps; simp [pollAux]
  | succ n ih =>
      intro done sleeps
      unfold pollAux
      cases classifyAttempt (f (done + 1)) with
      | retry =>
          have := ih (done + 1) (sleeps + 1)
          show (pollAux f (done + 1) n (sleeps + 1)).attempts ≤ done + (n + 1)
          omega
      | finish r =>
          show done + 1 ≤ done + (n + 1)
          omega

theorem pollAux_all_retry (f : Nat → Attempt) :
    ∀ (fuel done sleeps : Nat),
      (∀ i, done < i → i ≤ done + fuel → attemptRetryable (f i) = true) →
      pollAux f done fuel sleeps = ⟨none, done + fuel, sleeps + fuel⟩ := by
  intro fuel
  induction fuel with
  | zero => intro done sleeps h; simp [pollAux]
  | succ n ih =>
      intro done sleeps h
      have hr : attemptRetryable (f (done + 1)) = true := h (done + 1) (by omega) (by omega)
      unfold pollAux
      rw [retryable_classify hr]
      have hrec := ih (done + 1) (sleeps + 1) (fun i h1 h2 => h i (by omega) (by omega))
      rw [hrec]
      have e1 : done + 1 + n = done + (n + 1) := by omega
      have e2 : sleeps + 1 + n = sleeps + (n + 1) := by omega
      rw [e1, e2]

theorem pollAux_first_finish (f : Nat → Attempt) :
    ∀ (fuel done sleeps k : Nat) (r : Option Json),
      done < k → k ≤ done + fuel →
      (∀ i, done < i → i < k → attemptRetryable (f i) = true) →
      classifyAttempt (f k) = .finish r →
      pollAux f done fuel sleeps = ⟨r, k, sleeps + (k - done - 1)⟩ := by
  intro fuel
  induction fuel with
  | zero =>
      intro done sleeps k r h1 h2 hall hk
      exact absurd (by omega : done < done) (Nat.lt_irrefl done)
  | succ n ih =>
      intro done sleeps k r h1 h2 hall hk
      by_cases hke : k = done + 1
      · subst hke
        unfold pollAux
        rw [hk]
        have e : done + 1 - done - 1 = 0 := by omega
        rw [e]
        rfl
      · have hlt : done + 1 < k := by omega
        have hr : attemptRetryable (f (done + 1)) = true := hall (done + 1) (by omega) hlt
        unfold pollAux
        rw [retryable_classify hr]
        have hrec := ih (done + 1) (sleeps + 1) k r hlt (by omega)
          (fun i a b => hall i (by omega) b) hk
        rw [hrec]
        have e : sleeps + 1 + (k - (done + 1) - 1) = sleeps + (k - done - 1) := by omega
        rw [e]

theorem jsonIsStrEq_eq {j : Json} {s : String} (h : jsonIsStrEq j s = true) :
    j = Json.str s := by
  cases j <;> simp [jsonIsStrEq] at h
  case str t => rw [h]

theorem classifyBody_finish_some {body : Option Json} {j : Json}
    (h : classifyBody body = .finish (some j)) : truthy j = true := by
  cases body with
  | none => exact AttemptStep.noConfusion h
  | some d =>
      cases d with
      | obj kvs =>
          have h3 : (if jsonIsStrEq (taskStatus kvs) "completed" then
                       AttemptStep.finish (some (Json.obj kvs))
                     else if jsonIsStrEq (taskStatus kvs) "failed" then
                       AttemptStep.finish none
                     else AttemptStep.retry) = AttemptStep.finish (some j) := h
          by_cases h1 : jsonIsStrEq (taskStatus kvs) "completed" = true
          · rw [if_pos h1] at h3
            injection h3 with h3
            injection h3 with h3
            subst h3
            cases kvs with
            | nil => simp [taskStatus, dictGetD, jsonIsStrEq] at h1
            | cons e rest => rfl
          · rw [if_neg h1] at h3
            by_cases hf : jsonIsStrEq (taskStatus kvs) "failed" = true
            · rw [if_pos hf] at h3
              injection h3 with h3
              exact Option.noConfusion h3
            · rw [if_neg hf] at h3
              exact AttemptStep.noConfusion h3
      | null =>
          injection h with h
          exact Option.noConfusion h
      | bool b =>
          injection h with h
          exact Option.noConfusion h
      | num n =>
          injection h with h
          exact Option.noConfusion h
      | str s =>
          injection h with h
          exact Option.noConfusion h
      | arr xs =>
          injection h with h
          exact Option.noConfusion h

theorem classify_finish_some {a : Attempt} {j : Json}
    (h : classifyAttempt a = .finish (some j)) : truthy j = true := by
  cases a with
  | transportErr => exact AttemptStep.noConfusion h
  | response code body =>
      have h2 : (if code ≠ 200 then AttemptStep.retry else classifyBody body) =
          AttemptStep.finish (some j) := h
      by_cases hc : code ≠ 200
      · rw [if_pos hc] at h2
        exact AttemptStep.noConfusion h2
      · rw [if_neg hc] at h2
        exact classifyBody_finish_some h2

theorem pollAux_result_truthy (f : Nat → Attempt) :
    ∀ (fuel done sleeps : Nat) (j : Json),
      (pollAux f done fuel sleeps).result = some j → truthy j = true := by
  intro fuel
  induction fuel with
  | zero =>
      intro done sleeps j h
      simp [pollAux] at h
  | succ n ih =>
      intro done sleeps j h
      unfold pollAux at h
      cases hc : classifyAttempt (f (done + 1)) with
      | retry =>
          rw [hc] at h
          exact ih (done + 1) (sleeps + 1) j h
      | finish r =>
          rw [hc] at h
          have hr : r = some j := h
          subst hr
          exact classify_finish_some hc

/-- A pending task-status response. -/
def pendingAttempt : Attempt :=
  .response 200 (some (Json.obj [("status", Json.str "pending")]))

/-- A completed task payload. -/
def completedPayload : Json :=
  Json.obj [("status", Json.str "completed"), ("result", Json.str "page-content")]

/-- A failed task-status response. -/
def failedAttempt : Attempt :=
  .response 200 (some (Json.obj [("status", Json.str "failed"), ("error", Json.str "boom")]))

/-- Attempt sequence pending, pending, completed, pending, pending, ... -/
def pollSeqPPC : Nat → Attempt :=
  fun n => if n = 3 then .response 200 (some completedPayload) else pendingAttempt

/-- Attempt sequence that stays pending forever. -/
def pollSeqPending : Nat → Attempt := fun _ => pendingAttempt

/-- Attempt sequence that reports failure immediately. -/
def pollSeqFail : Nat → Attempt := fun _ => failedAttempt

/-- **C3.** The poller makes at most 12 attempts, each one GET with a
10-second timeout, sleeping 5 seconds after every retried attempt; when the
first non-retried attempt (all earlier ones being retryable: any other
status, non-200, transport error or malformed JSON) carries status
`completed` the loop returns that attempt's full payload immediately, and
status `failed` makes it return absence immediately; 12 retryable attempts
exhaust the loop and return absence.  Concretely: pending, pending,
completed returns the third payload after 3 attempts; all-pending returns
absence after 12 attempts; failed on the first attempt stops after 1
attempt. -/
theorem wait_poll_spec (f : Nat → Attempt) (k : Nat) (kvs : List (String × Json)) :
    pollMaxAttempts = 12 ∧ pollSleepSeconds = 5 ∧ pollRequestTimeoutSeconds = 10 ∧
    (wait_poll f).attempts ≤ 12 ∧
    ((∀ i, 1 ≤ i → i ≤ 12 → attemptRetryable (f i) = true) →
      wait_poll f = ⟨none, 12, 12⟩) ∧
    (1 ≤ k → k ≤ 12 →
      (∀ i, 1 ≤ i → i < k → attemptRetryable (f i) = true) →
      f k = Attempt.response 200 (some (Json.obj kvs)) →
      ((jsonIsStrEq (taskStatus kvs) "completed" = true →
          wait_poll f = ⟨some (Json.obj kvs), k, k - 1⟩) ∧
       (jsonIsStrEq (taskStatus kvs) "failed" = true →
          wait_poll f = ⟨none, k, k - 1⟩))) ∧
    wait_poll pollSeqPPC = ⟨some completedPayload, 3, 2⟩ ∧
    wait_poll pollSeqPending = ⟨none, 12, 12⟩ ∧
    wait_poll pollSeqFail = ⟨none, 1, 0⟩ := by
  refine ⟨rfl, rfl, rfl, ?_, ?_, ?_, rfl, rfl, rfl⟩
  · have := pollAux_attempts_le f 12 0 0
    simpa [wait_poll, pollMaxAttempts] using this
  · intro h
    have := pollAux_all_retry f 12 0 0 (fun i h1 h2 => h i (by omega) (by omega))
    simpa [wait_poll, pollMaxAttempts] using this
  · intro h1 h2 hall hfk
    constructor
    · intro hst
      have hcl : classifyAttempt (f k) = .finish (some (Json.obj kvs)) := by
        rw [hfk]
        show (if (200 : Nat) ≠ 200 then AttemptStep.retry
              else classifyBody (some (Json.obj kvs))) = _
        rw [if_neg (by omega : ¬ (200 : Nat) ≠ 200)]
        show (if jsonIsStrEq (taskStatus kvs) "completed" then
                AttemptStep.finish (some (Json.obj kvs))
              else if jsonIsStrEq (taskStatus kvs) "failed" then
                AttemptStep.finish none
              else AttemptStep.retry) = _
        rw [if_pos hst]
      have := pollAux_first_finish f 12 0 0 k (some (Json.obj kvs)) (by omega) (by omega)
        (fun i a b => hall i (by omega) b) hcl
      simpa [wait_poll, pollMaxAttempts] using this
    · intro hst
      have hne : ¬ jsonIsStrEq (taskStatus kvs) "completed" = true := by
        rw [jsonIsStrEq_eq hst]
        simp [jsonIsStrEq]
      have hcl : classifyAttempt (f k) = .finish none := by
        rw [hfk]
        show (if (200 : Nat) ≠ 200 then AttemptStep.retry
              else classifyBody (some (Json.obj kvs))) = _
        rw [if_neg (by omega : ¬ (200 : Nat) ≠ 200)]
        show (if jsonIsStrEq (taskStatus kvs) "completed" then
                AttemptStep.finish (some (Json.obj kvs))
              else if jsonIsStrEq (taskStatus kvs) "failed" then
                AttemptStep.finish none
              else AttemptStep.retry) = _
        rw [if_neg hne, if_pos hst]
      have := pollAux_first_finish f 12 0 0 k none (by omega) (by omega)
        (fun i a b => hall i (by omega) b) hcl
      simpa [wait_poll, pollMaxAttempts] using this

/-- Witness for `wait_poll_spec`: the all-pending sequence exhausts all 12
attempts and returns absence. -/
theorem wait_poll_spec_witness :
    wait_poll pollSeqPending = ⟨none, 12, 12⟩ :=
  (wait_poll_spec pollSeqPending 1 []).2.2.2.2.1 (fun _ _ _ => rfl)

/-! ## `scripts/wait_crawl.py` — `wait_for_completion` and `main` -/

/-- Escape one character for a JSON string literal the way `json.dumps`
does with its defaults (modelled for the printable-ASCII range plus
newline, carriage return and tab). -/
def jsonCharEscape (c : Char) : String :=
  if c = '\\' then "\\\\"
  else if c = '"' then "\\\""
  else if c = '\n' then "\\n"
  else if c = '\r' then "\\r"
  else if c = '\t' then "\\t"
  else String.singleton c

/-- Body of a JSON string literal. -/
def jsonStrEscape (s : String) : String :=
  String.join (s.toList.map jsonCharEscape)

mutual

/-- Python's `json.dumps` with default options: `null`/`true`/`false`,
decimal integers, double-quoted strings, and the default separators
`", "` and `": "`. -/
def dumps : Json → String
  | .null => "null"
  | .bool true => "true"
  | .bool false => "false"
  | .num n => toString n
  | .str s => "\"" ++ jsonStrEscape s ++ "\""
  | .arr xs => "[" ++ dumpsList xs ++ "]"
  | .obj kvs => "\x7b" ++ dumpsFields kvs ++ "\x7d"

/-- Comma-separated `dumps` of the elements of an array. -/
def dumpsList : List Json → String
  | [] => ""
  | [x] => dumps x
  | x :: y :: xs => dumps x ++ ", " ++ dumpsList (y :: xs)

/-- Comma-separated `"key": value` entries of an object. -/
def dumpsFields : List (String × Json) → String
  | [] => ""
  | [(k, v)] => "\"" ++ jsonStrEscape k ++ "\": " ++ dumps v
  | (k, v) :: e :: kvs =>
      "\"" ++ jsonStrEscape k ++ "\": " ++ dumps v ++ ", " ++ dumpsFields (e :: kvs)

end

/-- Outcome of reading and parsing `/tmp/crawl_submit_response.json`
(lines 16–42 of `wait_crawl.py`), as the sequential checks of the script
observe it: file missing (`FileNotFoundError`), other read error, empty
after `strip()`, `json.loads` failure, or a parsed value. -/
inductive SubmitFile where
  | missing : SubmitFile
  | readError : SubmitFile
  | empty : SubmitFile
  | badJson : SubmitFile
  | parsed (j : Json) : SubmitFile

/-- `wait_for_completion` of `wait_crawl.py` (lines 12–85).  Every failure
to obtain a truthy `task_id` returns `None` without polling: missing or
unreadable file, empty content, unparsable JSON, a payload whose
`response_data.get` raises `AttributeError` (non-object JSON, caught by the
outer `except Exception`), or a falsy `task_id`.  Otherwise the polling
loop runs. -/
def wait_for_completion (file : SubmitFile) (f : Nat → Attempt) : Option Json :=
  match file with
  | .missing => none
  | .readError => none
  | .empty => none
  | .badJson => none
  | .parsed (Json.obj kvs) =>
      if truthy (dictGet kvs "task_id") then (wait_poll f).result else none
  | .parsed _ => none

/-- Observable outcome of a `wait_crawl.py` run: exit code and the value
published as the `response` output. -/
structure WaitMainOut where
  exitCode : Nat
  output : String

/-- The empty JSON object literal published on failure paths. -/
def emptyJsonObject : String := "\x7b\x7d"

/-- `main` of `wait_crawl.py` (lines 97–109): publish `json.dumps(result)`
when `wait_for_completion` returned a truthy result, the empty JSON object
literal otherwise; the script never calls `sys.exit`, so the exit code is 0
on every path. -/
def wait_main (file : SubmitFile) (f : Nat → Attempt) : WaitMainOut :=
  match wait_for_completion file f with
  | some j => if truthy j then ⟨0, dumps j⟩ else ⟨0, emptyJsonObject⟩
  | none => ⟨0, emptyJsonObject⟩

theorem wait_for_completion_some_truthy {file : SubmitFile} {f : Nat → Attempt}
    {j : Json} (h : wait_for_completion file f = some j) : truthy j = true := by
  cases file with
  | missing => cases h
  | readError => cases h
  | empty => cases h
  | badJson => cases h
  | parsed p =>
      cases p with
      | obj kvs =>
          have h2 : (if truthy (dictGet kvs "task_id") then (wait_poll f).result
                     else none) = some j := h
          by_cases hid : truthy (dictGet kvs "task_id") = true
          · rw [if_pos hid] at h2
            exact pollAux_result_truthy f pollMaxAttempts 0 0 j h2
          · rw [if_neg hid] at h2
            exact Option.noConfusion h2
      | null => cases h
      | bool b => cases h
      | num n => cases h
      | str s => cases h
      | arr xs => cases h

/-- **C9.** Every run of the task poller publishes a `response` output and
exits with status zero: the JSON-encoded task payload when polling
succeeded, the empty JSON object literal on every failure or timeout
path. -/
theorem wait_main_always_outputs (file : SubmitFile) (f : Nat → Attempt) :
    (wait_main file f).exitCode = 0 ∧
    ((∃ j, wait_for_completion file f = some j ∧
        (wait_main file f).output = dumps j) ∨
     (wait_for_completion file f = none ∧
        (wait_main file f).output = emptyJsonObject)) := by
  constructor
  · unfold wait_main
    cases wait_for_completion file f with
    | none => rfl
    | some j =>
        show (if truthy j = true then (⟨0, dumps j⟩ : WaitMainOut)
              else ⟨0, emptyJsonObject⟩).exitCode = 0
        split_ifs <;> rfl
  · cases h : wait_for_completion file f with
    | none =>
        right
        refine ⟨rfl, ?_⟩
        unfold wait_main
        rw [h]
    | some j =>
        left
        refine ⟨j, rfl, ?_⟩
        unfold wait_main
        rw [h]
        show (if truthy j = true then (⟨0, dumps j⟩ : WaitMainOut)
              else ⟨0, emptyJsonObject⟩).output = dumps j
        rw [if_pos (wait_for_completion_some_truthy h)]

/-! ## `scripts/ai_inference.py` -/

/-- Subscript keys used by the response-shape navigation. -/
inductive PyKey where
  | str (s : String) : PyKey
  | int (n : Nat) : PyKey

/-- Python subscription `v[key]` on a value parsed from JSON: dict lookup
(`KeyError` when the key is missing — also for an integer key, since
JSON-parsed dicts have string keys), list indexing (`IndexError` out of
range, `TypeError` for a string key), string indexing (a one-character
string), and `TypeError` for every other receiver. -/
def pySubscript : Json → PyKey → Except PyErr Json
  | .obj kvs, .str k =>
      match List.lookup k kvs with
      | some v => .ok v
      | none => .error .keyError
  | .obj _, .int _ => .error .keyError
  | .arr xs, .int i =>
      match xs[i]? with
      | some v => .ok v
      | none => .error .indexError
  | .arr _, .str _ => .error .typeError
  | .str s, .int i =>
      match s.toList[i]? with
      | some c => .ok (.str (String.mk [c]))
      | none => .error .indexError
  | .str _, .str _ => .error .typeError
  | _, _ => .error .typeError

/-- The navigation `result['choices'][0]['message']['content']` (line 62
of `ai_inference.py`). -/
def openaiExtract (j : Json) : Except PyErr Json := do
  let a ← pySubscript j (.str "choices")
  let b ← pySubscript a (.int 0)
  let c ← pySubscript b (.str "message")
  pySubscript c (.str "content")

/-- The navigation `result['content'][0]['text']` (line 97 of
`ai_inference.py`). -/
def anthropicExtract (j : Json) : Except PyErr Json := do
  let a ← pySubscript j (.str "content")
  let b ← pySubscript a (.int 0)
  pySubscript b (.str "text")

/-- Outcome of the one HTTP POST of a call function: a transport-level
`RequestException`, or a response with its final status code and body
(`none` when `response.json()` raises; with requests ≥ 2.27 that error is
itself a `RequestException`, so the call function catches it). -/
inductive HttpOutcome where
  | transportErr : HttpOutcome
  | response (code : Nat) (body : Option Json) : HttpOutcome

/-- `call_openai_api` of `ai_inference.py` (lines 36–69).  A transport
error is caught (`None`); `raise_for_status` raises `HTTPError` — caught —
exactly for status codes in `[400, 600)`; an unparsable body is caught
(`None`); then the reply is extracted, `KeyError`/`IndexError` being caught
(`None`) while a `TypeError` from a wrongly-typed shape propagates to the
caller. -/
def openaiHandleBody (body : Option Json) : Except PyErr (Option Json) :=
  match body with
  | none => .ok none
  | some j =>
      match openaiExtract j with
      | .ok v => .ok (some v)
      | .error .keyError => .ok none
      | .error .indexError => .ok none
      | .error e => .error e

/-- Status check and body handling of `call_openai_api`. -/
def call_openai_api (o : HttpOutcome) : Except PyErr (Option Json) :=
  match o with
  | .transportErr => .ok none
  | .response code body =>
      if 400 ≤ code ∧ code < 600 then .ok none
      else openaiHandleBody body

/-- `call_anthropic_api` of `ai_inference.py` (lines 71–104): the same
error handling with the Anthropic response shape. -/
def anthropicHandleBody (body : Option Json) : Except PyErr (Option Json) :=
  match body with
  | none => .ok none
  | some j =>
      match anthropicExtract j with
      | .ok v => .ok (some v)
      | .error .keyError => .ok none
      | .error .indexError => .ok none
      | .error e => .error e

/-- Status check and body handling of `call_anthropic_api`. -/
def call_anthropic_api (o : HttpOutcome) : Except PyErr (Option Json) :=
  match o with
  | .transportErr => .ok none
  | .response code body =>
      if 400 ≤ code ∧ code < 600 then .ok none
      else anthropicHandleBody body

/-- Python `str.lower()`, modelled for ASCII text. -/
def pyLower (s : String) : String :=
  String.mk (s.toList.map Char.toLower)

/-- `load_system_prompt` of `ai_inference.py` (lines 13–20): the prompt
file's content stripped, or `""` when reading raised. -/
def load_system_prompt (fileRead : Option String) : String :=
  match fileRead with
  | some s => pyStrip s
  | none => ""

/-- `load_user_prompt` of `ai_inference.py` (lines 22–34): the
`USER_PROMPT` environment value when non-empty (returned as-is), otherwise
stdin stripped, or `""` when reading stdin raised. -/
def load_user_prompt (envPrompt : String) (stdinRead : Option String) : String :=
  if envPrompt ≠ "" then envPrompt
  else
    match stdinRead with
    | some s => pyStrip s
    | none => ""

/-- Inputs of one `ai_inference.py` run: the environment values, the
outcome of reading the prompt file and stdin, and the outcome each HTTP
call would have if issued. -/
structure AiEnv where
  provider : String
  api_key : String
  system_prompt_file : String
  system_prompt_read : Option String
  user_prompt : String
  stdin_read : Option String
  openai_response : HttpOutcome
  anthropic_response : HttpOutcome

/-- Observable outcome of `main`: a normal exit with its code, the number
of HTTP calls made and the value published as the `response` output — or an
exception escaping `main` after some number of calls. -/
inductive AiResult where
  | exited (code : Nat) (calls : Nat) (output : Option Json) : AiResult
  | raised (e : PyErr) (calls : Nat) : AiResult

/-- The fixed failure fallback published at line 180 of
`ai_inference.py`. -/
def aiFallbackMsg : String := "AI inference failed. Please check your API configuration."

/-- Whether `len(x)` is defined for the value (`str`, `list`, `dict`):
`main` evaluates `len(response)` before publishing a truthy response
(line 176), so a truthy number or boolean would raise `TypeError` there. -/
def jsonHasLen : Json → Bool
  | .str _ => true
  | .arr _ => true
  | .obj _ => true
  | _ => false

/-- Response handling of `main` (lines 173–182 of `ai_inference.py`,
including the `len(response)` call at line 176): a `None` or falsy response
publishes the fixed fallback and exits 1; a truthy response is published
with exit 0. -/
def handleAiResponse (r : Except PyErr (Option Json)) (calls : Nat) : AiResult :=
  match r with
  | .error e => .raised e calls
  | .ok none => .exited 1 calls (some (Json.str aiFallbackMsg))
  | .ok (some v) =>
      if truthy v then
        if jsonHasLen v then .exited 0 calls (some v)
        else .raised .typeError calls
      else .exited 1 calls (some (Json.str aiFallbackMsg))

/-- `main` of `ai_inference.py` (lines 119–185): validate the configuration
(exit 1 before any network call when the provider, API key, prompt-file
path, loaded system prompt or user prompt is empty), dispatch on the
lowercased provider (`openai`/`custom` → the OpenAI-compatible call,
`anthropic` → the Anthropic call, anything else exits 1 with no call), then
handle the response. -/
def ai_main (e : AiEnv) : AiResult :=
  if pyLower e.provider = "" then .exited 1 0 none
  else if e.api_key = "" then .exited 1 0 none
  else if e.system_prompt_file = "" then .exited 1 0 none
  else if load_system_prompt e.system_prompt_read = "" then .exited 1 0 none
  else if load_user_prompt e.user_prompt e.stdin_read = "" then .exited 1 0 none
  else if pyLower e.provider = "openai" ∨ pyLower e.provider = "custom" then
    handleAiResponse (call_openai_api e.openai_response) 1
  else if pyLower e.provider = "anthropic" then
    handleAiResponse (call_anthropic_api e.anthropic_response) 1
  else .exited 1 0 none

/-- An OpenAI-shaped success body whose reply text is `"Hello!"`. -/
def openaiGoodBody : Json :=
  Json.obj [("choices", Json.arr [Json.obj [("message",
    Json.obj [("role", Json.str "assistant"), ("content", Json.str "Hello!")])]])]

/-- **C5 (counterexample).** The claim says any response missing the reply
field yields `None` rather than raising, and any non-2xx status yields
`None`: but on `{"choices": [5]}` (a shape without the reply field) the
navigation raises an uncaught `TypeError`, and a 304 status with a good
body returns its reply text. -/
theorem call_openai_counterexample :
    call_openai_api (.response 200 (some (Json.obj [("choices", Json.arr [Json.num 5])])))
      = .error PyErr.typeError ∧
    call_openai_api (.response 304 (some openaiGoodBody)) = .ok (some (Json.str "Hello!")) :=
  ⟨rfl, rfl⟩

/-- **C5 (amended).** For a simulated OpenAI-shaped success response, the
extracted text is exactly the nested `choices[0].message.content` value.
A transport error yields absence; a 4xx/5xx status (what
`raise_for_status` flags — other non-2xx codes such as 304 are processed
normally) yields absence; an unparsable body yields absence; a shape whose
navigation fails with a missing dict key or list index (`KeyError` /
`IndexError`) yields absence without raising; a shape whose navigation hits
a value of the wrong type raises `TypeError` out of the function. -/
theorem openaiHandleBody_some (j : Json) :
    openaiHandleBody (some j) =
      match openaiExtract j with
      | .ok v => .ok (some v)
      | .error .keyError => .ok none
      | .error .indexError => .ok none
      | .error e => .error e := rfl

theorem call_openai_api_spec (code : Nat) (body : Option Json) (j v : Json) :
    call_openai_api HttpOutcome.transportErr = .ok none ∧
    (400 ≤ code → code < 600 →
      call_openai_api (.response code body) = .ok none) ∧
    (¬(400 ≤ code ∧ code < 600) →
      call_openai_api (.response code none) = .ok none) ∧
    (¬(400 ≤ code ∧ code < 600) → openaiExtract j = .ok v →
      call_openai_api (.response code (some j)) = .ok (some v)) ∧
    (¬(400 ≤ code ∧ code < 600) →
      (openaiExtract j = .error .keyError ∨ openaiExtract j = .error .indexError) →
      call_openai_api (.response code (some j)) = .ok none) ∧
    (¬(400 ≤ code ∧ code < 600) → openaiExtract j = .error .typeError →
      call_openai_api (.response code (some j)) = .error .typeError) ∧
    call_openai_api (.response 200 (some openaiGoodBody)) = .ok (some (Json.str "Hello!")) := by
  refine ⟨rfl, ?_, ?_, ?_, ?_, ?_, rfl⟩
  · intro h1 h2
    show (if 400 ≤ code ∧ code < 600 then (.ok none : Except PyErr (Option Json))
          else openaiHandleBody body) = .ok none
    rw [if_pos ⟨h1, h2⟩]
  · intro h
    show (if 400 ≤ code ∧ code < 600 then (.ok none : Except PyErr (Option Json))
          else openaiHandleBody none) = .ok none
    rw [if_neg h]
    rfl
  · intro h hx
    show (if 400 ≤ code ∧ code < 600 then (.ok none : Except PyErr (Option Json))
          else openaiHandleBody (some j)) = .ok (some v)
    rw [if_neg h, openaiHandleBody_some, hx]
  · intro h hx
    show (if 400 ≤ code ∧ code < 600 then (.ok none : Except PyErr (Option Json))
          else openaiHandleBody (some j)) = .ok none
    rw [if_neg h, openaiHandleBody_some]
    cases hx with
    | inl hx => rw [hx]
    | inr hx => rw [hx]
  · intro h hx
    show (if 400 ≤ code ∧ code < 600 then (.ok none : Except PyErr (Option Json))
          else openaiHandleBody (some j)) = .error .typeError
    rw [if_neg h, openaiHandleBody_some, hx]

/-- Witness for `call_openai_api_spec`: the concrete success response
yields exactly its nested reply text. -/
theorem call_openai_api_spec_witness :
    call_openai_api (.response 200 (some openaiGoodBody)) = .ok (some (Json.str "Hello!")) :=
  (call_openai_api_spec 200 none openaiGoodBody (Json.str "Hello!")).2.2.2.1
    (by decide) rfl

/-- **C6.** For every provider value whose lowercasing lies outside
`{openai, custom, anthropic}`, the inference caller exits with status 1
having made no network call and published no output. -/
theorem ai_main_unknown_provider (e : AiEnv)
    (h : pyLower e.provider ∉ (["openai", "custom", "anthropic"] : List String)) :
    ai_main e = .exited 1 0 none := by
  have hoc : ¬(pyLower e.provider = "openai" ∨ pyLower e.provider = "custom") := by
    intro hc
    cases hc with
    | inl hx => exact h (by rw [hx]; simp)
    | inr hx => exact h (by rw [hx]; simp)
  have han : ¬ pyLower e.provider = "anthropic" := by
    intro hx
    exact h (by rw [hx]; simp)
  unfold ai_main
  by_cases v1 : pyLower e.provider = ""
  · rw [if_pos v1]
  · rw [if_neg v1]
    by_cases v2 : e.api_key = ""
    · rw [if_pos v2]
    · rw [if_neg v2]
      by_cases v3 : e.system_prompt_file = ""
      · rw [if_pos v3]
      · rw [if_neg v3]
        by_cases v4 : load_system_prompt e.system_prompt_read = ""
        · rw [if_pos v4]
        · rw [if_neg v4]
          by_cases v5 : load_user_prompt e.user_prompt e.stdin_read = ""
          · rw [if_pos v5]
          · rw [if_neg v5, if_neg hoc, if_neg han]

/-- A provider value outside the recognised set, with otherwise complete
configuration. -/
def aiEnvUnknownProvider : AiEnv :=
  ⟨"Gemini", "key", "prompt.md", some "system prompt", "hello", none,
    HttpOutcome.transportErr, HttpOutcome.transportErr⟩

/-- Witness for `ai_main_unknown_provider` at provider `"Gemini"`. -/
theorem ai_main_unknown_provider_witness :
    ai_main aiEnvUnknownProvider = .exited 1 0 none :=
  ai_main_unknown_provider aiEnvUnknownProvider (by decide)

/-- **C10.** When validation passes, the provider dispatches to a call, and
the call returns the empty string as the extracted reply, `main` treats it
as a failure: it publishes the fixed fallback string as the `response`
output and exits with status 1, exactly as on a failed call. -/
theorem ai_main_empty_reply (e : AiEnv)
    (hk : e.api_key ≠ "") (hf : e.system_prompt_file ≠ "")
    (hs : load_system_prompt e.system_prompt_read ≠ "")
    (hu : load_user_prompt e.user_prompt e.stdin_read ≠ "") :
    ((pyLower e.provider = "openai" ∨ pyLower e.provider = "custom") →
      call_openai_api e.openai_response = .ok (some (Json.str "")) →
      ai_main e = .exited 1 1 (some (Json.str aiFallbackMsg))) ∧
    (pyLower e.provider = "anthropic" →
      call_anthropic_api e.anthropic_response = .ok (some (Json.str "")) →
      ai_main e = .exited 1 1 (some (Json.str aiFallbackMsg))) := by
  constructor
  · intro hd hcall
    have hp : ¬ pyLower e.provider = "" := by
      cases hd with
      | inl hx => rw [hx]; decide
      | inr hx => rw [hx]; decide
    unfold ai_main
    rw [if_neg hp, if_neg hk, if_neg hf, if_neg hs, if_neg hu, if_pos hd, hcall]
    rfl
  · intro hd hcall
    have hp : ¬ pyLower e.provider = "" := by rw [hd]; decide
    have hoc : ¬(pyLower e.provider = "openai" ∨ pyLower e.provider = "custom") := by
      rw [hd]; decide
    unfold ai_main
    rw [if_neg hp, if_neg hk, if_neg hf, if_neg hs, if_neg hu, if_neg hoc,
      if_pos hd, hcall]
    rfl

/-- An OpenAI-shaped success body whose reply text is the empty string. -/
def emptyReplyBody : Json :=
  Json.obj [("choices", Json.arr [Json.obj [("message",
    Json.obj [("content", Json.str "")])]])]

/-- Configuration whose call succeeds with an empty extracted reply. -/
def aiEnvEmptyReply : AiEnv :=
  ⟨"openai", "key", "prompt.md", some "system prompt", "hello", none,
    HttpOutcome.response 200 (some emptyReplyBody), HttpOutcome.transportErr⟩

/-- Witness for `ai_main_empty_reply` at the configuration above. -/
theorem ai_main_empty_reply_witness :
    ai_main aiEnvEmptyReply = .exited 1 1 (some (Json.str aiFallbackMsg)) :=
  (ai_main_empty_reply aiEnvEmptyReply (by decide) (by decide) (by decide)
    (by decide)).1 (Or.inl (by decide)) rfl
